import Mathlib

/-!
Shallow embedding of `src/main.c` (ATMEGA32U4 CTC timer/counter firmware).

The machine state is the set of hardware registers the program touches plus
the one global variable `count_ms`.  Registers are modelled as natural
numbers; 8-bit/16-bit width only matters where the C code truncates
(`unsigned int` arithmetic wraps at 2^16 on avr-gcc, and `~(1<<PD6)` is
truncated to the 8-bit register width on assignment to `PORTD`).
-/

namespace CTCTimer

/-- Bit positions from the ATmega32U4 I/O headers, as used in `src/main.c`. -/
def PD6 : Nat := 6

def CS11 : Nat := 1

def WGM12 : Nat := 3

def OCIE1A : Nat := 1

/-- Value of `#define CPU_8MHz 0x01` (src/main.c line 29). -/
def CPU_8MHz : Nat := 0x01

/-- Machine state: the registers `src/main.c` reads or writes, plus the
global `volatile unsigned int count_ms`. -/
structure MCU where
  CLKPR : Nat
  DDRD : Nat
  PORTD : Nat
  TCCR1A : Nat
  TCCR1B : Nat
  TIMSK1 : Nat
  OCR1A : Nat
  TCNT1 : Nat
  count_ms : Nat
  deriving Repr, DecidableEq

/-- Power-on reset state: all AVR I/O registers and the zero-initialised
global start at 0. -/
def powerOn : MCU :=
  { CLKPR := 0, DDRD := 0, PORTD := 0, TCCR1A := 0, TCCR1B := 0,
    TIMSK1 := 0, OCR1A := 0, TCNT1 := 0, count_ms := 0 }

/-- Macro `CPU_PRESCALE(n)`, i.e. `(CLKPR = 0x80, CLKPR = (n))` (src/main.c
line 23): two sequential stores to `CLKPR`. -/
def CPU_PRESCALE (n : Nat) (s : MCU) : MCU :=
  { { s with CLKPR := 0x80 } with CLKPR := n }

/-- Function `Counter_init` (src/main.c lines 92-155):
`TCCR1A |= 0x00; TCCR1B |= ((1<<CS11)|(1<<WGM12)); TIMSK1 |= (1<<OCIE1A);
OCR1A = 1000; TCNT1 = 0;` -/
def Counter_init (s : MCU) : MCU :=
  { s with
    TCCR1A := s.TCCR1A ||| 0x00
    TCCR1B := s.TCCR1B ||| ((1 <<< CS11) ||| (1 <<< WGM12))
    TIMSK1 := s.TIMSK1 ||| (1 <<< OCIE1A)
    OCR1A := 1000
    TCNT1 := 0 }

/-- Handler `ISR(TIMER1_COMPA_vect){ count_ms ++; }` (src/main.c lines 59-61).
`count_ms` is an `unsigned int`, 16 bits wide on avr-gcc, so the increment
wraps at 2^16. -/
def ISR_TIMER1_COMPA (s : MCU) : MCU :=
  { s with count_ms := (s.count_ms + 1) % 65536 }

/-- First conditional of the blink loop (src/main.c lines 75-78):
`if(count_ms == 999 && !PORTD){ PORTD |= (1<<PD6); count_ms = 0; }` -/
def blinkBranchA (s : MCU) : MCU :=
  if s.count_ms = 999 ∧ s.PORTD = 0 then
    { s with PORTD := s.PORTD ||| (1 <<< PD6), count_ms := 0 }
  else s

/-- Second conditional of the blink loop (src/main.c lines 79-82):
`if(count_ms == 999){ PORTD &= ~(1<<PD6); count_ms = 0; }`.
`~(1<<PD6)` is truncated to the 8-bit register width on the store, so the
mask is `0xFF ^^^ (1 <<< PD6) = 0xBF`. -/
def blinkBranchB (s : MCU) : MCU :=
  if s.count_ms = 999 then
    { s with PORTD := s.PORTD &&& (0xFF ^^^ (1 <<< PD6)), count_ms := 0 }
  else s

/-- One full iteration of the `while(1)` body (src/main.c lines 72-83):
the two `if`s run in sequence — the second is *not* an `else`. -/
def loopIter (s : MCU) : MCU :=
  blinkBranchB (blinkBranchA s)

/-- The setup sequence of `main` before the loop (src/main.c lines 66-71):
`CPU_PRESCALE(CPU_8MHz); Counter_init(); sei(); DDRD |= (1<<PD6);` -/
def mainSetup (s : MCU) : MCU :=
  let s1 := Counter_init (CPU_PRESCALE CPU_8MHz s)
  { s1 with DDRD := s1.DDRD ||| (1 <<< PD6) }

/-- The state in which the `while(1)` loop is first entered. -/
def startState : MCU := mainSetup powerOn

/-- The register state right after `Counter_init` returns inside `main`. -/
def afterInit : MCU := Counter_init (CPU_PRESCALE CPU_8MHz powerOn)

/-- The LED pin: bit PD6 of the PORTD output register. -/
def pd6 (s : MCU) : Bool := s.PORTD.testBit PD6

/-- One "round" of steady-state operation: one compare-match interrupt
followed by one iteration of the blink loop. -/
def round (s : MCU) : MCU := loopIter (ISR_TIMER1_COMPA s)

/-- State after `n` rounds starting from `s`. -/
def runRounds : Nat → MCU → MCU
  | 0, s => s
  | n + 1, s => runRounds n (round s)

/-- Number of rounds among the first `n` (starting from `s`) whose loop
iteration changed the value of the PD6 output pin. -/
def toggleCount : Nat → MCU → Nat
  | 0, _ => 0
  | n + 1, s => (if pd6 (round s) = pd6 s then 0 else 1) + toggleCount n (round s)

/-- An execution event: one compare-match interrupt (`tick`) or one
iteration of the polling loop (`check`). -/
inductive Event where
  | tick
  | check
  deriving Repr, DecidableEq

/-- Effect of one event on the machine state. -/
def stepEvent : Event → MCU → MCU
  | .tick => ISR_TIMER1_COMPA
  | .check => loopIter

/-- Run a sequence of events from a state. -/
def exec : MCU → List Event → MCU
  | s, [] => s
  | s, e :: es => exec (stepEvent e s) es

/-- A state is reachable if some interleaving of interrupts and loop
iterations leads to it from the loop entry state. -/
def ReachableState (s : MCU) : Prop :=
  ∃ es : List Event, exec startState es = s

/-- Fairness constraint used by the spec's boundary property: at least one
loop check occurs between any two consecutive interrupts. -/
def noTwoTicks : List Event → Bool
  | .tick :: .tick :: _ => false
  | _ :: es => noTwoTicks es
  | [] => true

/-- Truth of "this trace does not start with an interrupt". -/
def headNotTick : List Event → Prop
  | .tick :: _ => False
  | _ => True

/-- The blink-loop iteration as the spec's §4.3 words describe it: an
if / else-if chain on `TickCounter == 999`, with the register-wide zero
check on the first branch.  Written from the spec for comparison with
`loopIter`, which is translated from the source. -/
def blinkIterSpec (s : MCU) : MCU :=
  if s.count_ms = 999 ∧ s.PORTD = 0 then
    { s with PORTD := s.PORTD ||| (1 <<< PD6), count_ms := 0 }
  else if s.count_ms = 999 then
    { s with PORTD := s.PORTD &&& (0xFF ^^^ (1 <<< PD6)), count_ms := 0 }
  else s

/-- CPU clock frequency in Hz selected by `CPU_PRESCALE(CPU_8MHz)`
(src/main.c lines 29 and 66). -/
def F_CPU : Nat := 8000000

/-- Decode of the clock-select table for TCCR1B bits CS12..CS10
(src/main.c lines 120-128): `none` when the timer is stopped or driven by
an external pin. -/
def prescaleDiv (tccr1b : Nat) : Option Nat :=
  match tccr1b &&& 7 with
  | 1 => some 1
  | 2 => some 8
  | 3 => some 64
  | 4 => some 256
  | 5 => some 1024
  | _ => none

/-- Timer clock frequency in Hz: the CPU clock divided by the prescaler. -/
def timerClockHz (s : MCU) : Nat :=
  F_CPU / ((prescaleDiv s.TCCR1B).getD 0)

/-- Modelled from the spec: the repository contains no model of the timer
hardware itself, and the spec's glossary defines the compare-match event as
the count reaching the threshold register, which resets it — so one
interrupt fires per `OCR1A` timer-clock ticks. -/
def ticksPerInterrupt (s : MCU) : Nat := s.OCR1A

/-- Compare-match interrupt rate in Hz under the spec's hardware model. -/
def interruptRateHz (s : MCU) : Nat :=
  timerClockHz s / ticksPerInterrupt s

end CTCTimer

namespace CTCTimer

/-! ### Basic evaluation lemmas -/

lemma startState_count : startState.count_ms = 0 := rfl

lemma startState_PORTD : startState.PORTD = 0 := rfl

/-- Bit `j ≠ 6` of the set-mask `1<<PD6` is clear. -/
lemma setMask_testBit : ∀ j, j < 8 → j ≠ 6 → ((1 <<< PD6 : Nat)).testBit j = false := by
  decide

/-- Bit `j ≠ 6`, `j < 8`, of the clear-mask `0xFF ^ (1<<PD6)` is set. -/
lemma clearMask_testBit : ∀ j, j < 8 → j ≠ 6 → ((0xFF ^^^ (1 <<< PD6) : Nat)).testBit j = true := by
  decide

/-! ### Claim theorems: configuration and arithmetic -/

/-- C3: `Counter_init` selects CTC mode via WGM12 only (WGM bits 0100),
prescaler /8 via CS11 only (CS bits 010), sets OCR1A to 1000, enables only
the output-compare-A interrupt, and zeroes TCNT1. -/
theorem c3_counter_init_config :
    afterInit.TCCR1A.testBit 0 = false ∧          -- WGM10
    afterInit.TCCR1A.testBit 1 = false ∧          -- WGM11
    afterInit.TCCR1B.testBit 3 = true ∧           -- WGM12
    afterInit.TCCR1B.testBit 4 = false ∧          -- WGM13
    afterInit.TCCR1B.testBit 0 = false ∧          -- CS10
    afterInit.TCCR1B.testBit 1 = true ∧           -- CS11
    afterInit.TCCR1B.testBit 2 = false ∧          -- CS12
    afterInit.TCCR1B = (1 <<< CS11) ||| (1 <<< WGM12) ∧
    afterInit.TIMSK1 = (1 <<< OCIE1A) ∧
    afterInit.OCR1A = 1000 ∧
    afterInit.TCNT1 = 0 := by
  decide

/-- C2: with the CPU at 8 MHz and the configured /8 prescaler, the timer
clock is 1 MHz and the OCR1A threshold of 1000 yields one interrupt per
1000 timer ticks, i.e. a rate of exactly 1000 Hz (spec hardware model). -/
theorem c2_interrupt_rate :
    prescaleDiv startState.TCCR1B = some 8 ∧
    timerClockHz startState = 1000000 ∧
    ticksPerInterrupt startState = 1000 ∧
    interruptRateHz startState = 1000 := by
  decide

/-- C8: one ISR invocation increments `count_ms` by one (mod 2^16) and
leaves every other component of the state unchanged. -/
theorem c8_isr_increments_only (s : MCU) :
    (ISR_TIMER1_COMPA s).count_ms = (s.count_ms + 1) % 65536 ∧
    (ISR_TIMER1_COMPA s).PORTD = s.PORTD ∧
    (ISR_TIMER1_COMPA s).DDRD = s.DDRD ∧
    (ISR_TIMER1_COMPA s).CLKPR = s.CLKPR ∧
    (ISR_TIMER1_COMPA s).TCCR1A = s.TCCR1A ∧
    (ISR_TIMER1_COMPA s).TCCR1B = s.TCCR1B ∧
    (ISR_TIMER1_COMPA s).TIMSK1 = s.TIMSK1 ∧
    (ISR_TIMER1_COMPA s).OCR1A = s.OCR1A ∧
    (ISR_TIMER1_COMPA s).TCNT1 = s.TCNT1 :=
  ⟨rfl, rfl, rfl, rfl, rfl, rfl, rfl, rfl, rfl⟩

/-- C5: the two sequential `if`s of the loop body behave exactly like the
spec's if / else-if chain, because the taken first branch resets the
counter and so disables the second test. -/
theorem c5_loop_matches_spec_chain (s : MCU) : loopIter s = blinkIterSpec s := by
  by_cases h9 : s.count_ms = 999
  · by_cases hp : s.PORTD = 0
    · simp [loopIter, blinkIterSpec, blinkBranchA, blinkBranchB, h9, hp]
    · simp [loopIter, blinkIterSpec, blinkBranchA, blinkBranchB, h9, hp]
  · simp [loopIter, blinkIterSpec, blinkBranchA, blinkBranchB, h9]

/-- C9: a loop iteration can change only bit PD6 of PORTD and the tick
counter; every other PORTD bit and every other register is preserved. -/
theorem c9_loop_frame (s : MCU) (i : Nat) (h8 : i < 8) (h6 : i ≠ 6) :
    (loopIter s).PORTD.testBit i = s.PORTD.testBit i ∧
    (loopIter s).DDRD = s.DDRD ∧
    (loopIter s).CLKPR = s.CLKPR ∧
    (loopIter s).TCCR1A = s.TCCR1A ∧
    (loopIter s).TCCR1B = s.TCCR1B ∧
    (loopIter s).TIMSK1 = s.TIMSK1 ∧
    (loopIter s).OCR1A = s.OCR1A ∧
    (loopIter s).TCNT1 = s.TCNT1 := by
  unfold loopIter blinkBranchA blinkBranchB
  split_ifs <;>
    simp [Nat.testBit_or, Nat.testBit_and, setMask_testBit i h8 h6,
      clearMask_testBit i h8 h6]

/-- Witness for C9 at a concrete state and bit index. -/
theorem c9_loop_frame_witness :
    (0 : Nat) < 8 ∧ (0 : Nat) ≠ 6 ∧
    ((loopIter { powerOn with count_ms := 999 }).PORTD.testBit 0 =
      ({ powerOn with count_ms := 999 } : MCU).PORTD.testBit 0) := by
  refine ⟨by decide, by decide, ?_⟩
  exact (c9_loop_frame { powerOn with count_ms := 999 } 0 (by decide) (by decide)).1

/-! ### Analysis of steady-state rounds (one tick, then one loop check) -/

lemma runRounds_append (m n : Nat) (s : MCU) :
    runRounds (m + n) s = runRounds n (runRounds m s) := by
  induction m generalizing s with
  | zero => rw [Nat.zero_add]; rfl
  | succ m ih =>
      have h : m + 1 + n = (m + n) + 1 := by omega
      rw [h, runRounds, runRounds, ih]

/-- Below the threshold, a round just increments the counter. -/
lemma round_low (s : MCU) (h : s.count_ms ≤ 997) :
    round s = { s with count_ms := s.count_ms + 1 } := by
  have h1 : (s.count_ms + 1) % 65536 = s.count_ms + 1 := Nat.mod_eq_of_lt (by omega)
  have h2 : ¬ (s.count_ms + 1 = 999) := by omega
  simp [round, ISR_TIMER1_COMPA, loopIter, blinkBranchA, blinkBranchB, h1, h2]

/-- Ramp: while the counter stays at most 998, rounds only count up. -/
lemma runRounds_ramp (m : Nat) (s : MCU) (h : s.count_ms + m ≤ 998) :
    runRounds m s = { s with count_ms := s.count_ms + m } := by
  induction m generalizing s with
  | zero => rfl
  | succ m ih =>
      rw [runRounds, round_low s (by omega), ih]
      · simp [Nat.add_assoc, Nat.add_comm 1 m]
      · simp; omega

lemma setMask_eq : (1 <<< PD6 : Nat) = 64 := rfl

lemma clear_64 : (64 &&& (0xFF ^^^ (1 <<< PD6)) : Nat) = 0 := rfl

lemma testBit_64_PD6 : Nat.testBit 64 PD6 = true := by decide

/-- Firing round from 998 with the port all-zero: the pin goes high. -/
lemma round_fire_low (s : MCU) (h : s.count_ms = 998) (hp : s.PORTD = 0) :
    round s = { s with PORTD := 64, count_ms := 0 } := by
  simp [round, ISR_TIMER1_COMPA, loopIter, blinkBranchA, blinkBranchB, h, hp, setMask_eq]

/-- Firing round from 998 with only PD6 set: the pin goes low. -/
lemma round_fire_high (s : MCU) (h : s.count_ms = 998) (hp : s.PORTD = 64) :
    round s = { s with PORTD := 0, count_ms := 0 } := by
  simp [round, ISR_TIMER1_COMPA, loopIter, blinkBranchA, blinkBranchB, h, hp, clear_64]

/-- A 999-round half-cycle from a low state raises the pin. -/
lemma cycle_low (s : MCU) (h : s.count_ms = 0) (hp : s.PORTD = 0) :
    runRounds 999 s = { s with PORTD := 64, count_ms := 0 } := by
  have h998 : runRounds 998 s = { s with count_ms := 998 } := by
    rw [runRounds_ramp 998 s (by omega), h]
  have : (998 : Nat) + 1 = 999 := rfl
  rw [← this, runRounds_append, h998, runRounds, runRounds,
    round_fire_low { s with count_ms := 998 } rfl hp]

/-- A 999-round half-cycle from a pin-high state lowers the pin. -/
lemma cycle_high (s : MCU) (h : s.count_ms = 0) (hp : s.PORTD = 64) :
    runRounds 999 s = { s with PORTD := 0, count_ms := 0 } := by
  have h998 : runRounds 998 s = { s with count_ms := 998 } := by
    rw [runRounds_ramp 998 s (by omega), h]
  have : (998 : Nat) + 1 = 999 := rfl
  rw [← this, runRounds_append, h998, runRounds, runRounds,
    round_fire_high { s with count_ms := 998 } rfl hp]

/-- Closed form of the run: after k half-cycles the pin is high iff k is
odd, and the counter is back at 0. -/
lemma runRounds_halfCycles (k : Nat) :
    runRounds (999 * k) startState =
      (if k % 2 = 0 then startState else { startState with PORTD := 64 }) := by
  induction k with
  | zero => rfl
  | succ k ih =>
      have hmul : 999 * (k + 1) = 999 * k + 999 := by ring
      rw [hmul, runRounds_append, ih]
      by_cases hk : k % 2 = 0
      · rw [if_pos hk, cycle_low startState rfl rfl]
        have : (k + 1) % 2 ≠ 0 := by omega
        rw [if_neg this]
        rfl
      · rw [if_neg hk, cycle_high _ rfl rfl]
        have : (k + 1) % 2 = 0 := by omega
        rw [if_pos this]
        rfl

/-- C1: from the loop entry state (PORTD all-zero, counter 0) the pin
alternates deterministically: low after an even number of 999-tick
half-cycles, high after an odd number, for every k (so indefinitely), and
every state has a successor (no terminal state). -/
theorem c1_blink_alternates (k : Nat) :
    (runRounds (999 * k) startState).count_ms = 0 ∧
    pd6 (runRounds (999 * k) startState) = decide (k % 2 = 1) ∧
    pd6 (runRounds (999 * (k + 1)) startState) = ! pd6 (runRounds (999 * k) startState) ∧
    runRounds (999 * k + 1) startState = round (runRounds (999 * k) startState) := by
  refine ⟨?_, ?_, ?_, ?_⟩
  · rw [runRounds_halfCycles k]
    by_cases hk : k % 2 = 0 <;> simp [hk, startState_count]
  · rw [runRounds_halfCycles k]
    by_cases hk : k % 2 = 0
    · have : ¬ (k % 2 = 1) := by omega
      simp [hk, this, pd6, startState_PORTD]
    · have h1 : k % 2 = 1 := by omega
      simp [hk, h1, pd6, testBit_64_PD6]
  · rw [runRounds_halfCycles k, runRounds_halfCycles (k + 1)]
    by_cases hk : k % 2 = 0
    · have : ¬ ((k + 1) % 2 = 0) := by omega
      simp [hk, this, pd6, startState_PORTD, testBit_64_PD6]
    · have : (k + 1) % 2 = 0 := by omega
      simp [hk, this, pd6, startState_PORTD, testBit_64_PD6]
  · rw [runRounds_append (999 * k) 1, runRounds, runRounds]

/-! ### Toggle counting -/

lemma toggleCount_append (m n : Nat) (s : MCU) :
    toggleCount (m + n) s = toggleCount m s + toggleCount n (runRounds m s) := by
  induction m generalizing s with
  | zero => rw [Nat.zero_add]; simp [toggleCount, runRounds]
  | succ m ih =>
      have h : m + 1 + n = (m + n) + 1 := by omega
      rw [h, toggleCount, ih, toggleCount, runRounds]
      omega

lemma toggleCount_ramp (m : Nat) (s : MCU) (h : s.count_ms + m ≤ 998) :
    toggleCount m s = 0 := by
  induction m generalizing s with
  | zero => rfl
  | succ m ih =>
      rw [toggleCount, round_low s (by omega)]
      rw [ih { s with count_ms := s.count_ms + 1 } (by simp; omega)]
      simp [pd6]

lemma toggleCount_one_low (s : MCU) (h : s.count_ms = 998) (hp : s.PORTD = 0) :
    toggleCount 1 s = 1 := by
  rw [toggleCount, round_fire_low s h hp, toggleCount]
  simp [pd6, hp, testBit_64_PD6]

lemma toggleCount_one_high (s : MCU) (h : s.count_ms = 998) (hp : s.PORTD = 64) :
    toggleCount 1 s = 1 := by
  rw [toggleCount, round_fire_high s h hp, toggleCount]
  simp [pd6, hp, testBit_64_PD6]

lemma toggleCount_cycle_low (s : MCU) (h : s.count_ms = 0) (hp : s.PORTD = 0) :
    toggleCount 999 s = 1 := by
  have hsplit : (999 : Nat) = 998 + 1 := rfl
  rw [hsplit, toggleCount_append, toggleCount_ramp 998 s (by omega),
    runRounds_ramp 998 s (by omega),
    toggleCount_one_low { s with count_ms := s.count_ms + 998 } (by simp [h]) hp]

lemma toggleCount_cycle_high (s : MCU) (h : s.count_ms = 0) (hp : s.PORTD = 64) :
    toggleCount 999 s = 1 := by
  have hsplit : (999 : Nat) = 998 + 1 := rfl
  rw [hsplit, toggleCount_append, toggleCount_ramp 998 s (by omega),
    runRounds_ramp 998 s (by omega),
    toggleCount_one_high { s with count_ms := s.count_ms + 998 } (by simp [h]) hp]

/-- C4: from the loop entry state, 999 tick events each followed by a loop
check give exactly one pin toggle and leave the counter at 0; 1998 such
events give exactly two toggles, return PORTD to its original value, and
leave the counter at 0. -/
theorem c4_end_to_end_scenario :
    toggleCount 999 startState = 1 ∧
    (runRounds 999 startState).count_ms = 0 ∧
    toggleCount 1998 startState = 2 ∧
    (runRounds 1998 startState).PORTD = startState.PORTD ∧
    (runRounds 1998 startState).count_ms = 0 := by
  have h999 : runRounds 999 startState = { startState with PORTD := 64, count_ms := 0 } :=
    cycle_low startState rfl rfl
  have h1998 : runRounds 1998 startState = { startState with PORTD := 0, count_ms := 0 } := by
    have hsplit : (1998 : Nat) = 999 + 999 := rfl
    rw [hsplit, runRounds_append, h999,
      cycle_high { startState with PORTD := 64, count_ms := 0 } rfl rfl]
  have ht : toggleCount 1998 startState = 2 := by
    have hsplit : (1998 : Nat) = 999 + 999 := rfl
    rw [hsplit, toggleCount_append, h999,
      toggleCount_cycle_low startState rfl rfl,
      toggleCount_cycle_high { startState with PORTD := 64, count_ms := 0 } rfl rfl]
  exact ⟨toggleCount_cycle_low startState rfl rfl, by rw [h999],
    ht, by rw [h1998]; rfl, by rw [h1998]⟩

/-! ### Event traces: reachability, counter bound, pin monotonicity -/

lemma loopIter_count_le (s : MCU) (h : s.count_ms ≤ 999) :
    (loopIter s).count_ms ≤ 998 := by
  by_cases h9 : s.count_ms = 999
  · by_cases hp : s.PORTD = 0 <;>
      simp [loopIter, blinkBranchA, blinkBranchB, h9, hp]
  · simp [loopIter, blinkBranchA, blinkBranchB, h9]
    omega

lemma tick_count (s : MCU) (h : s.count_ms ≤ 998) :
    (ISR_TIMER1_COMPA s).count_ms = s.count_ms + 1 := by
  have hlt : s.count_ms + 1 < 65536 := by omega
  simp [ISR_TIMER1_COMPA, Nat.mod_eq_of_lt hlt]

lemma exec_count_le (es : List Event) :
    ∀ s : MCU, noTwoTicks es = true →
      (s.count_ms ≤ 998 ∨ (s.count_ms ≤ 999 ∧ headNotTick es)) →
      (exec s es).count_ms ≤ 999 := by
  induction es with
  | nil =>
      intro s _ h
      rcases h with h | ⟨h, _⟩ <;> [exact Nat.le_trans h (by omega); exact h]
  | cons e es ih =>
      intro s hwf h
      cases e with
      | tick =>
          have hc : s.count_ms ≤ 998 := by
            rcases h with h | ⟨_, hh⟩
            · exact h
            · exact absurd hh (by simp [headNotTick])
          have hwf' : noTwoTicks es = true := by
            cases es with
            | nil => rfl
            | cons e' es' =>
                cases e' with
                | tick => simp [noTwoTicks] at hwf
                | check => simpa [noTwoTicks] using hwf
          have hnt : headNotTick es := by
            cases es with
            | nil => trivial
            | cons e' es' =>
                cases e' with
                | tick => simp [noTwoTicks] at hwf
                | check => trivial
          refine ih (ISR_TIMER1_COMPA s) hwf' (Or.inr ⟨?_, hnt⟩)
          rw [tick_count s hc]
          omega
      | check =>
          have hc : s.count_ms ≤ 999 := by
            rcases h with h | ⟨h, _⟩ <;> omega
          have hwf' : noTwoTicks es = true := by
            cases es with
            | nil => rfl
            | cons e' es' => simpa [noTwoTicks] using hwf
          exact ih (loopIter s) hwf' (Or.inl (loopIter_count_le s hc))

/-- C7: along any interleaving of interrupts and loop checks in which a
loop check separates consecutive interrupts, the tick counter never
exceeds 999. -/
theorem c7_counter_never_reaches_1000 (es : List Event) (h : noTwoTicks es = true) :
    (exec startState es).count_ms ≤ 999 :=
  exec_count_le es startState h (Or.inl (by rw [startState_count]; omega))

/-- Witness for C7 on a concrete well-formed trace. -/
theorem c7_witness :
    noTwoTicks [Event.tick, Event.check, Event.tick] = true ∧
    (exec startState [Event.tick, Event.check, Event.tick]).count_ms ≤ 999 :=
  ⟨by decide, c7_counter_never_reaches_1000 [Event.tick, Event.check, Event.tick] (by decide)⟩

lemma loopIter_PORTD_01 (s : MCU) (h : s.PORTD = 0 ∨ s.PORTD = 64) :
    (loopIter s).PORTD = 0 ∨ (loopIter s).PORTD = 64 := by
  rcases h with h | h
  · by_cases h9 : s.count_ms = 999
    · right
      simp [loopIter, blinkBranchA, blinkBranchB, h9, h, setMask_eq]
    · left
      simp [loopIter, blinkBranchA, blinkBranchB, h9, h]
  · by_cases h9 : s.count_ms = 999
    · left
      simp [loopIter, blinkBranchA, blinkBranchB, h9, h, clear_64]
    · right
      simp [loopIter, blinkBranchA, blinkBranchB, h9, h]

lemma exec_PORTD_01 (es : List Event) :
    ∀ s : MCU, (s.PORTD = 0 ∨ s.PORTD = 64) →
      ((exec s es).PORTD = 0 ∨ (exec s es).PORTD = 64) := by
  induction es with
  | nil => intro s h; exact h
  | cons e es ih =>
      intro s h
      cases e with
      | tick => exact ih _ (by simpa [stepEvent, ISR_TIMER1_COMPA] using h)
      | check => exact ih _ (loopIter_PORTD_01 s h)

lemma reachable_PORTD_01 (s : MCU) (hr : ReachableState s) :
    s.PORTD = 0 ∨ s.PORTD = 64 := by
  obtain ⟨es, rfl⟩ := hr
  exact exec_PORTD_01 es startState (Or.inl startState_PORTD)

/-- C6: in any reachable state where the counter is 999, the next loop
iteration flips the PD6 pin, resets the counter, and only one of the two
branch bodies can take effect because the taken branch resets the counter. -/
theorem c6_toggle_and_reset_at_999 (s : MCU) (hr : ReachableState s)
    (h9 : s.count_ms = 999) :
    pd6 (loopIter s) = ! pd6 s ∧
    (loopIter s).count_ms = 0 ∧
    ¬ ((s.count_ms = 999 ∧ s.PORTD = 0) ∧ (blinkBranchA s).count_ms = 999) := by
  have hp := reachable_PORTD_01 s hr
  refine ⟨?_, ?_, ?_⟩
  · rcases hp with hp | hp
    · simp [loopIter, blinkBranchA, blinkBranchB, h9, hp, pd6, setMask_eq,
        testBit_64_PD6]
    · simp [loopIter, blinkBranchA, blinkBranchB, h9, hp, pd6, clear_64,
        testBit_64_PD6]
  · rcases hp with hp | hp <;>
      simp [loopIter, blinkBranchA, blinkBranchB, h9, hp]
  · rintro ⟨⟨hc, hp0⟩, hA⟩
    simp [blinkBranchA, hc, hp0] at hA

lemma exec_ticks (n : Nat) :
    ∀ s : MCU, s.count_ms + n < 65536 →
      exec s (List.replicate n Event.tick) = { s with count_ms := s.count_ms + n } := by
  induction n with
  | zero => intro s _; simp [exec]
  | succ n ih =>
      intro s h
      rw [List.replicate_succ]
      show exec (ISR_TIMER1_COMPA s) (List.replicate n Event.tick) = _
      rw [ih (ISR_TIMER1_COMPA s) (by simp [ISR_TIMER1_COMPA]; omega)]
      simp [ISR_TIMER1_COMPA, Nat.mod_eq_of_lt (show s.count_ms + 1 < 65536 by omega)]
      omega

/-- Witness for C6: the state after 999 consecutive interrupts is
reachable, has counter 999, and the next loop iteration flips the pin. -/
theorem c6_witness :
    ReachableState (exec startState (List.replicate 999 Event.tick)) ∧
    (exec startState (List.replicate 999 Event.tick)).count_ms = 999 ∧
    pd6 (loopIter (exec startState (List.replicate 999 Event.tick))) =
      ! pd6 (exec startState (List.replicate 999 Event.tick)) := by
  have h9 : (exec startState (List.replicate 999 Event.tick)).count_ms = 999 := by
    rw [exec_ticks 999 startState (by decide)]
    decide
  exact ⟨⟨List.replicate 999 Event.tick, rfl⟩, h9,
    (c6_toggle_and_reset_at_999 _ ⟨List.replicate 999 Event.tick, rfl⟩ h9).1⟩

/-! ### A foreign PORTD bit blocks the assert branch -/

lemma PORTD_ne_zero_of_testBit (p i : Nat) (h : p.testBit i = true) : p ≠ 0 := by
  intro h0
  rw [h0] at h
  simp at h

lemma clearMask_bit6 : ((0xFF ^^^ (1 <<< PD6) : Nat)).testBit PD6 = false := by
  decide

/-- With a bit other than PD6 set, the first branch is skipped, the set
bit survives a loop iteration, and the PD6 pin can only be cleared. -/
lemma loopIter_bit_keep (s : MCU) (i : Nat) (h8 : i < 8) (h6 : i ≠ 6)
    (hb : s.PORTD.testBit i = true) :
    (loopIter s).PORTD.testBit i = true ∧
    (pd6 s = false → pd6 (loopIter s) = false) := by
  have hpne : s.PORTD ≠ 0 := PORTD_ne_zero_of_testBit _ _ hb
  have hA : blinkBranchA s = s := by
    simp [blinkBranchA, hpne]
  have hfired : s.count_ms = 999 →
      loopIter s = { s with PORTD := s.PORTD &&& (0xFF ^^^ (1 <<< PD6)), count_ms := 0 } := by
    intro h9
    rw [loopIter, hA, blinkBranchB, if_pos h9]
  by_cases h9 : s.count_ms = 999
  · constructor
    · rw [hfired h9]
      show Nat.testBit (s.PORTD &&& (0xFF ^^^ (1 <<< PD6))) i = true
      rw [Nat.testBit_and, clearMask_testBit i h8 h6, hb]
      rfl
    · intro _
      rw [hfired h9]
      show Nat.testBit (s.PORTD &&& (0xFF ^^^ (1 <<< PD6))) PD6 = false
      rw [Nat.testBit_and, clearMask_bit6, Bool.and_false]
  · simp [loopIter, hA, blinkBranchB, h9, hb]

lemma exec_bit_keep (es : List Event) :
    ∀ s : MCU, ∀ i, i < 8 → i ≠ 6 → s.PORTD.testBit i = true →
      ((exec s es).PORTD.testBit i = true ∧
       (pd6 s = false → pd6 (exec s es) = false)) := by
  induction es with
  | nil => intro s i _ _ hb; exact ⟨hb, fun h => h⟩
  | cons e es ih =>
      intro s i h8 h6 hb
      cases e with
      | tick =>
          have := ih (ISR_TIMER1_COMPA s) i h8 h6 (by simpa [ISR_TIMER1_COMPA] using hb)
          exact ⟨this.1, fun h => this.2 (by simpa [pd6, ISR_TIMER1_COMPA] using h)⟩
      | check =>
          obtain ⟨hkeep, hlow⟩ := loopIter_bit_keep s i h8 h6 hb
          have := ih (loopIter s) i h8 h6 hkeep
          exact ⟨this.1, fun h => this.2 (hlow h)⟩

/-- C10: if a PORTD bit other than PD6 is set, the whole-register zero
test fails so the assert branch cannot run, a loop iteration can never set
PD6, and along any further events the foreign bit stays set and a low pin
stays low. -/
theorem c10_foreign_bit_blocks_assert (s : MCU) (i : Nat) (es : List Event)
    (h8 : i < 8) (h6 : i ≠ 6) (hb : s.PORTD.testBit i = true) :
    ¬ (s.count_ms = 999 ∧ s.PORTD = 0) ∧
    (pd6 (loopIter s) = true → pd6 s = true) ∧
    (exec s es).PORTD.testBit i = true ∧
    (pd6 s = false → pd6 (exec s es) = false) := by
  have hpne : s.PORTD ≠ 0 := PORTD_ne_zero_of_testBit _ _ hb
  obtain ⟨hkeep, hlow⟩ := exec_bit_keep es s i h8 h6 hb
  refine ⟨fun h => hpne h.2, ?_, hkeep, hlow⟩
  intro hset
  cases hpd : pd6 s with
  | true => rfl
  | false =>
      have := (loopIter_bit_keep s i h8 h6 hb).2 hpd
      rw [hset] at this
      exact absurd this (by simp)

/-- Witness for C10 at a concrete state, bit, and trace. -/
theorem c10_witness :
    (0 : Nat) < 8 ∧ (0 : Nat) ≠ 6 ∧
    ({ powerOn with PORTD := 1 } : MCU).PORTD.testBit 0 = true ∧
    (exec { powerOn with PORTD := 1 } [Event.check]).PORTD.testBit 0 = true := by
  refine ⟨by decide, by decide, by decide, ?_⟩
  exact (c10_foreign_bit_blocks_assert { powerOn with PORTD := 1 } 0 [Event.check]
    (by decide) (by decide) (by decide)).2.2.1

end CTCTimer
